import Mathlib

/-!
Verification of the ride-booking server's ride lifecycle engine.

The definitions below are a shallow embedding of the JavaScript sources:

* `src/utils/rideStatus.utils.js` — status tables, dwell-time policy, ETA
  projection (`getNextAutomaticStatus`, `getValidManualTransitions`,
  `getMinTimeForStatus`, `getUpdatedETA`, `hasEnoughTimePassed`,
  `isActiveRide`);
* `src/utils/db.js` — the in-memory store operations (`updateRide`,
  `findRideById`, `getActiveDrivers`, `findNearestDriver`) and the geo
  utilities (`calculateDistance`, `calculateETA`);
* `src/controllers/ride.controller.js` — `createRide`, `cancelRide`,
  `updateRideStatus` (with its inline `validNextStatuses` table) and
  `getRideStatus` (with its inline dwell and `nextStatus` tables);
* the scheduler tick of `server.js` (the periodic `updateRideStatus`
  function that advances active rides and emits socket updates).

Timestamps are modelled as rational milliseconds (JS `Date.now()` values),
JS numbers in the geo code as real numbers, and JS falsy-string defaulting
(`s || fallback`) as a test against the empty string.  Side effects are made
explicit: store-mutating operations take and return the list of rides, and
the scheduler tick additionally returns the ordered list of emitted events.
-/

/-- A ride record, restricted to the fields the lifecycle engine reads or
writes.  `lastUpdated` is the ms timestamp of the last status change. -/
structure Ride where
  id : Nat
  userId : Nat
  destination : String
  status : String
  lastUpdated : ℚ
  eta : String
  ride_duration : String
  cost : ℤ
  distance : ℝ

/-- A driver record (`src/utils/db.js` seed data shape), restricted to the
fields `findNearestDriver` reads. -/
structure Driver where
  id : Nat
  name : String
  active : Bool
  coords : List ℝ

/-! ## `src/utils/rideStatus.utils.js` -/

/-- `getNextAutomaticStatus` (rideStatus.utils.js:24-36): the automatic
progression table; statuses not in the table yield `null`. -/
def getNextAutomaticStatus (currentStatus : String) : Option String :=
  if currentStatus = "pending" then some "in_progress"
  else if currentStatus = "en route" then some "in_progress"
  else if currentStatus = "Driver on the way" then some "Driver arrived"
  else if currentStatus = "Driver arrived" then some "Ride started"
  else if currentStatus = "Ride started" then some "completed"
  else if currentStatus = "Ride completed" then some "completed"
  else if currentStatus = "in_progress" then some "completed"
  else none

/-- `getValidManualTransitions` (rideStatus.utils.js:43-56). -/
def getValidManualTransitions (currentStatus : String) : List String :=
  if currentStatus = "Driver on the way" then ["Driver arrived", "cancelled"]
  else if currentStatus = "Driver arrived" then ["Ride started", "cancelled"]
  else if currentStatus = "Ride started" then
    ["Ride completed", "completed", "cancelled"]
  else if currentStatus = "Ride completed" then ["completed"]
  else []

/-- `getMinTimeForStatus` (rideStatus.utils.js:75-85), minutes. -/
def getMinTimeForStatus (status : String) (isTestEnv : Bool) : ℚ :=
  if status = "Driver on the way" then (if isTestEnv then 1/10 else 1)
  else if status = "Driver arrived" then (if isTestEnv then 1/10 else 1/2)
  else if status = "Ride started" then (if isTestEnv then 1/10 else 1/10)
  else (if isTestEnv then 1/10 else 1/10)

/-- JS string defaulting `s || fallback`; the empty string models falsiness. -/
def strOr (s fallback : String) : String :=
  if s = "" then fallback else s

/-- `getUpdatedETA` (rideStatus.utils.js:93-105). -/
def getUpdatedETA (ride : Ride) (newStatus : String) : String :=
  if newStatus = "Driver arrived" then "Driver has arrived"
  else if newStatus = "Ride started" then strOr ride.ride_duration "In progress"
  else if newStatus = "Ride completed" ∨ newStatus = "completed" then "Completed"
  else strOr ride.eta "Updating..."

/-- `hasEnoughTimePassed` (rideStatus.utils.js:114-127); `now` stands for
`Date.now()`, in ms. -/
def hasEnoughTimePassed (lastUpdated : ℚ) (currentStatus : String)
    (isTestEnv : Bool) (now : ℚ) : Bool :=
  let elapsedMinutes := (now - lastUpdated) / (60 * 1000)
  elapsedMinutes ≥ getMinTimeForStatus currentStatus isTestEnv

/-- `isActiveRide` (rideStatus.utils.js:134-138). -/
def isActiveRide (ride : Ride) : Bool :=
  ride.status ≠ "completed" && ride.status ≠ "cancelled"

/-! ## `src/utils/db.js` — store operations -/

/-- `db.updateRide` (db.js:187-194): replace the first ride whose id matches
(the merge `{...old, ...updated}` is a full replace, since callers pass
complete records). -/
def updateRideInStore (rides : List Ride) (updated : Ride) : List Ride :=
  match rides with
  | [] => []
  | r :: rs =>
      if r.id = updated.id then updated :: rs
      else r :: updateRideInStore rs updated

/-- `db.findRideById` (db.js:195-197). -/
def findRideById (rides : List Ride) (rideId : Nat) : Option Ride :=
  rides.find? (fun r => r.id == rideId)

/-- `db.getActiveDrivers` (db.js:225-227). -/
def getActiveDrivers (drivers : List Driver) : List Driver :=
  drivers.filter (fun d => d.active)

/-- Remove the first ride with the given id: the `findIndex` + `splice`
step of `createRide` (ride.controller.js:184-189). -/
def removeRideById (rides : List Ride) (rideId : Nat) : List Ride :=
  match rides with
  | [] => []
  | r :: rs => if r.id = rideId then rs else r :: removeRideById rs rideId

/-! ## `src/utils/db.js` — geo utilities

JS numbers are modelled as real numbers, so `Math.sin`, `Math.cos`,
`Math.sqrt`, `Math.atan2` and `Math.round` become their exact real
counterparts; the `isNaN` guard has no real-number counterpart and is
dropped (reals carry no NaN). -/

/-- JS `Math.atan2 y x`, the argument of the complex number `x + i·y`. -/
noncomputable def atan2 (y x : ℝ) : ℝ :=
  Complex.arg ⟨x, y⟩

/-- `deg2rad` (db.js:135-137). -/
noncomputable def deg2rad (deg : ℝ) : ℝ :=
  deg * (Real.pi / 180)

/-- `calculateDistance` (db.js:95-132): haversine distance in km between two
`[longitude, latitude]` pairs, with the malformed-input fallback of 5 km.
Inside the arity guard the components are read positionally. -/
noncomputable def calculateDistance (coords1 coords2 : List ℝ) : ℝ :=
  if coords1.length = 2 ∧ coords2.length = 2 then
    let lon1 := coords1.getD 0 0
    let lat1 := coords1.getD 1 0
    let lon2 := coords2.getD 0 0
    let lat2 := coords2.getD 1 0
    let R : ℝ := 6371
    let dLat := deg2rad (lat2 - lat1)
    let dLon := deg2rad (lon2 - lon1)
    let a :=
      Real.sin (dLat / 2) * Real.sin (dLat / 2) +
        Real.cos (deg2rad lat1) * Real.cos (deg2rad lat2) *
          Real.sin (dLon / 2) * Real.sin (dLon / 2)
    let c := 2 * atan2 (Real.sqrt a) (Real.sqrt (1 - a))
    R * c
  else 5

/-- `calculateETA` (db.js:140-155): minutes at 30 km/h, rendered as the
human-readable string. -/
noncomputable def calculateETA (distance : ℝ) : String :=
  let hours := distance / 30
  let minutes : ℤ := round (hours * 60)
  if minutes < 1 then "Less than a minute"
  else if minutes = 1 then "1 minute"
  else if minutes < 60 then toString minutes ++ " minutes"
  else
    let h := minutes / 60
    let m := minutes % 60
    toString h ++ " hour" ++ (if h > 1 then "s" else "") ++ " " ++
      (if m > 0 then toString m ++ " minute" ++ (if m > 1 then "s" else "")
       else "")

/-- The loop of `findNearestDriver` (db.js:241-257): running best driver and
shortest distance, `none` standing for the initial `Infinity`. -/
noncomputable def nearestLoop (coords : List ℝ) :
    List Driver → Option (Driver × ℝ) → Option (Driver × ℝ)
  | [], best => best
  | d :: ds, best =>
      let dist := calculateDistance coords d.coords
      match best with
      | none => nearestLoop coords ds (some (d, dist))
      | some (b, shortest) =>
          if dist < shortest then nearestLoop coords ds (some (d, dist))
          else nearestLoop coords ds (some (b, shortest))

/-- `findNearestDriver` (db.js:234-260): `none` when no driver is active;
otherwise the nearest active driver together with its distance rounded to
two decimals (`parseFloat(distance.toFixed(2))`). -/
noncomputable def findNearestDriver (drivers : List Driver)
    (coords : List ℝ) : Option (Driver × ℝ) :=
  if (getActiveDrivers drivers).length = 0 then none
  else
    match nearestLoop coords (getActiveDrivers drivers) none with
    | none => none
    | some (d, dist) => some (d, (round (dist * 100) : ℤ) / 100)

/-! ## `src/controllers/ride.controller.js` -/

/-- Outcome of `createRide`, as seen by the HTTP client. -/
inductive CreateResult where
  | noDrivers (message : String)
  | created (ride : Ride)

/-- `createRide` (ride.controller.js:55-203), for requests that carry both
coordinate pairs (the geocoding fallback for a missing
`destination_coordinates` is outside the claims).  `newId` stands for the
`Date.now()` ride id and `now` for the creation timestamp. -/
noncomputable def createRide (rides : List Ride) (drivers : List Driver)
    (userId : Nat) (pickupCoords destCoords : List ℝ) (destination : String)
    (newId : Nat) (now : ℚ) : List Ride × CreateResult :=
  let existingRide := rides.find? (fun r =>
    r.userId == userId && r.status != "completed" && r.status != "cancelled")
  match findNearestDriver drivers pickupCoords with
  | none => (rides, .noDrivers "No drivers are currently available in your area")
  | some (_nearest, nearestDist) =>
      let distance := calculateDistance pickupCoords destCoords
      let cost : ℤ := round ((5 : ℝ) + distance * 2)
      let pickupETA := calculateETA nearestDist
      let rideETA := calculateETA distance
      let newRide : Ride :=
        { id := newId
          userId := userId
          destination := destination
          status := "Driver on the way"
          lastUpdated := now
          eta := pickupETA
          ride_duration := rideETA
          cost := cost
          distance := (round (distance * 100) : ℤ) / 100 }
      let rides1 :=
        match existingRide with
        | some ex => removeRideById rides ex.id
        | none => rides
      (rides1 ++ [newRide], .created newRide)

/-- Outcome of `cancelRide`, as seen by the HTTP client. -/
inductive CancelResult where
  | notFound
  | forbidden
  | alreadyCompleted
  | alreadyCancelled
  | ok

/-- `cancelRide` (ride.controller.js:215-256). -/
def cancelRide (rides : List Ride) (rideId userId : Nat) (now : ℚ) :
    List Ride × CancelResult :=
  match findRideById rides rideId with
  | none => (rides, .notFound)
  | some ride =>
      if ride.userId ≠ userId then (rides, .forbidden)
      else if ride.status = "completed" then (rides, .alreadyCompleted)
      else if ride.status = "cancelled" then (rides, .alreadyCancelled)
      else
        (updateRideInStore rides
          { ride with status := "cancelled", lastUpdated := now }, .ok)

/-- The inline `validNextStatuses` table of `updateRideStatus`
(ride.controller.js:664-669); statuses not in the table yield `[]`. -/
def validNextStatuses (status : String) : List String :=
  if status = "Driver on the way" then ["Driver arrived"]
  else if status = "Driver arrived" then ["Ride started", "cancelled"]
  else if status = "Ride started" then ["Ride completed", "completed", "cancelled"]
  else if status = "Ride completed" then ["completed"]
  else []

/-- Outcome of the manual `updateRideStatus`, as seen by the HTTP client;
the `invalidTransition` payload is the `validStatuses` list reported in the
400 response body. -/
inductive UpdateResult where
  | notFound
  | forbidden
  | alreadyCompleted
  | alreadyCancelled
  | invalidTransition (validStatuses : List String)
  | ok (ride : Ride)

/-- `updateRideStatus` (ride.controller.js:658-734), the manual transition
endpoint.  The socket emit it performs on success carries the same record
that is then stored, so it is omitted here. -/
def updateRideStatusCtrl (rides : List Ride) (rideId userId : Nat)
    (status : String) (now : ℚ) : List Ride × UpdateResult :=
  match findRideById rides rideId with
  | none => (rides, .notFound)
  | some ride =>
      if ride.userId ≠ userId then (rides, .forbidden)
      else if ride.status = "completed" then (rides, .alreadyCompleted)
      else if ride.status = "cancelled" then (rides, .alreadyCancelled)
      else if status ∈ validNextStatuses ride.status then
        let updated0 : Ride := { ride with status := status, lastUpdated := now }
        let updated : Ride :=
          if status = "Driver arrived" then { updated0 with eta := "Driver has arrived" }
          else if status = "Ride started" then { updated0 with eta := updated0.ride_duration }
          else if status = "Ride completed" ∨ status = "completed" then
            { updated0 with eta := "Completed" }
          else updated0
        (updateRideInStore rides updated, .ok updated)
      else (rides, .invalidTransition (validNextStatuses ride.status))

/-- The inline `minTimePerStatus` table of `getRideStatus`
(ride.controller.js:302-310), minutes, with its default of 2. -/
def ctrlMinTimeForStatus (status : String) : ℚ :=
  if status = "Driver on the way" then 2
  else if status = "Driver arrived" then 1/2
  else if status = "Ride started" then 1
  else 2

/-- The inline `nextStatus` table of `getRideStatus`
(ride.controller.js:319-328). -/
def ctrlNextStatus (status : String) : Option String :=
  if status = "Driver on the way" then some "Driver arrived"
  else if status = "Driver arrived" then some "Ride started"
  else if status = "Ride started" then some "Ride completed"
  else if status = "Ride completed" then some "completed"
  else if status = "pending" then some "in_progress"
  else if status = "confirmed" then some "in_progress"
  else if status = "en route" then some "in_progress"
  else if status = "in_progress" then some "completed"
  else none

/-- The `sort((a, b) => b.id - a.id)` + `[0]` step of `getRideStatus`
(ride.controller.js:290-291): the first ride carrying the maximal id (the
sort is stable, so the first-encountered ride wins a tie). -/
def mostRecent : List Ride → Option Ride
  | [] => none
  | r :: rs =>
      match mostRecent rs with
      | none => some r
      | some m => if r.id ≥ m.id then some r else some m

/-- `getRideStatus` (ride.controller.js:267-356), serving
`GET /api/rides/status`: picks the requester's most recent active ride and,
once the inline minimum dwell time has elapsed, advances it (defaulting to
`"Driver on the way"` for statuses outside the table) and writes the store.
Returns the possibly-updated store and the responded ride, `none` for the
404 case.  The test-only `x-test-case` header shortcut is omitted. -/
def getRideStatusStep (rides : List Ride) (userId : Nat) (now : ℚ) :
    List Ride × Option Ride :=
  let userRides := rides.filter (fun r =>
    r.userId == userId && r.status != "completed" && r.status != "cancelled")
  match mostRecent userRides with
  | none => (rides, none)
  | some ride =>
      let elapsedMinutes := (now - ride.lastUpdated) / (60 * 1000)
      if elapsedMinutes < ctrlMinTimeForStatus ride.status then (rides, some ride)
      else
        let newStatus := (ctrlNextStatus ride.status).getD "Driver on the way"
        let updated0 : Ride := { ride with status := newStatus, lastUpdated := now }
        let updated : Ride :=
          if newStatus = "Driver arrived" then { updated0 with eta := "Driver has arrived" }
          else if newStatus = "Ride started" then { updated0 with eta := updated0.ride_duration }
          else if newStatus = "Ride completed" ∨ newStatus = "completed" then
            { updated0 with eta := "Completed" }
          else updated0
        (updateRideInStore rides updated, some updated)

/-! ## The scheduler tick (`server.js`) -/

/-- An observable effect of one scheduler tick: a socket broadcast to the
ride's room, or a store write through `db.updateRide`. -/
inductive SchedEvent where
  | publish (rideId : Nat) (snapshot : Ride)
  | storeWrite (rideId : Nat) (snapshot : Ride)

/-- The ride id an event concerns. -/
def eventRideId : SchedEvent → Nat
  | .publish i _ => i
  | .storeWrite i _ => i

/-- The updated snapshot the scheduler builds for an advancing ride
(server.js:52-59): new status, fresh `lastUpdated`, and the projected ETA
computed from the already-updated record. -/
def advancedRide (ride : Ride) (newStatus : String) (now : ℚ) : Ride :=
  let updated0 : Ride := { ride with status := newStatus, lastUpdated := now }
  { updated0 with eta := getUpdatedETA updated0 newStatus }

/-- The per-ride body of the scheduler's `updateRideStatus` loop
(server.js:25-67): skip inactive rides, skip rides within their dwell
window, skip rides with no automatic next status; otherwise build the
updated snapshot, emit it to the ride's room, then write it to the store.
The state is the store paired with the ordered event trace. -/
def processRide (now : ℚ) (isTestEnv : Bool)
    (st : List Ride × List SchedEvent) (ride : Ride) :
    List Ride × List SchedEvent :=
  if ¬ isActiveRide ride then st
  else if ¬ hasEnoughTimePassed ride.lastUpdated ride.status isTestEnv now then st
  else
    match getNextAutomaticStatus ride.status with
    | none => st
    | some newStatus =>
        let updated := advancedRide ride newStatus now
        (updateRideInStore st.1 updated,
          st.2 ++ [.publish ride.id updated, .storeWrite ride.id updated])

/-- One scheduler tick (server.js:22-71): iterate the loop body over the
active rides (`db.getActiveRides`), threading the store and collecting the
emitted events in order. -/
def schedulerTick (rides : List Ride) (now : ℚ) (isTestEnv : Bool) :
    List Ride × List SchedEvent :=
  (rides.filter isActiveRide).foldl (processRide now isTestEnv) (rides, [])

/-! ## Event-ordering predicates for the scheduler trace -/

/-- The event trace consists of consecutive pairs: a publish immediately
followed by the store write of the same snapshot for the same ride. -/
inductive PublishThenWrite : List SchedEvent → Prop
  | nil : PublishThenWrite []
  | pair (i : Nat) (s : Ride) {rest : List SchedEvent} :
      PublishThenWrite rest →
      PublishThenWrite (SchedEvent.publish i s :: SchedEvent.storeWrite i s :: rest)

/-- The ordering property claimed by the spec: every published snapshot was
already written to the store at a strictly earlier position of the trace. -/
def StoreBeforePublish (trace : List SchedEvent) : Prop :=
  ∀ i rid s, trace.get? i = some (SchedEvent.publish rid s) →
    ∃ j, j < i ∧ trace.get? j = some (SchedEvent.storeWrite rid s)

/-! ## Concrete records used in witnesses and counterexamples -/

/-- A completed (terminal) ride. -/
def rideT : Ride :=
  { id := 5, userId := 3, destination := "Accra", status := "completed",
    lastUpdated := 0, eta := "Completed", ride_duration := "", cost := 12,
    distance := 0 }

/-- A ride waiting for its driver, owned by user 2. -/
def rideC3 : Ride :=
  { id := 7, userId := 2, destination := "Tema", status := "Driver on the way",
    lastUpdated := 0, eta := "5 minutes", ride_duration := "9 minutes",
    cost := 15, distance := 0 }

/-- A ride inside its dwell window at tick time 1000 ms. -/
def rideC4 : Ride :=
  { id := 13, userId := 9, destination := "Osu", status := "Driver on the way",
    lastUpdated := 0, eta := "4 minutes", ride_duration := "11 minutes",
    cost := 18, distance := 0 }

/-- A ride past its (test-mode) dwell window at tick time 60000 ms. -/
def rideC5 : Ride :=
  { id := 21, userId := 8, destination := "Kaneshie",
    status := "Driver on the way", lastUpdated := 0, eta := "6 minutes",
    ride_duration := "14 minutes", cost := 20, distance := 0 }

/-- The snapshot the scheduler is expected to build for `rideC5` at
60000 ms: status advanced, timestamp refreshed, ETA projected. -/
def rideC5adv : Ride :=
  { rideC5 with
      status := "Driver arrived"
      lastUpdated := 60000
      eta := "Driver has arrived" }

/-- A prior active ride of user 4, present before a second `createRide`. -/
def rideOld : Ride :=
  { id := 1, userId := 4, destination := "Home", status := "Driver on the way",
    lastUpdated := 0, eta := "3 minutes", ride_duration := "7 minutes",
    cost := 10, distance := 0 }

/-- An active driver. -/
def driver1 : Driver :=
  { id := 11, name := "John Smith", active := true, coords := [0, 0] }

/-- A ride of user 6 past the controller's 2-minute dwell at 300000 ms. -/
def rideC7 : Ride :=
  { id := 31, userId := 6, destination := "Labadi",
    status := "Driver on the way", lastUpdated := 0, eta := "2 minutes",
    ride_duration := "8 minutes", cost := 9, distance := 0 }

/-- A ride of user 12 carrying the legacy status `"Finish"`, past the
controller's default 2-minute dwell at 180000 ms. -/
def rideC10 : Ride :=
  { id := 41, userId := 12, destination := "Dansoman", status := "Finish",
    lastUpdated := 0, eta := "Updating...", ride_duration := "10 minutes",
    cost := 14, distance := 0 }

/-! ## Claim C1 — the automatic transition table -/

/-- C1, counterexample: the claim says every status other than
`"Driver on the way"`, `"Driver arrived"` and `"Ride started"` maps to
`null`, but `getNextAutomaticStatus "pending" = some "in_progress"`. -/
theorem c1_counterexample :
    getNextAutomaticStatus "pending" = some "in_progress" ∧
    ("pending" : String) ≠ "Driver on the way" ∧
    ("pending" : String) ≠ "Driver arrived" ∧
    ("pending" : String) ≠ "Ride started" := by
  decide

/-- C1 (amended): `getNextAutomaticStatus` maps `"Driver on the way"` to
`"Driver arrived"`, `"Driver arrived"` to `"Ride started"` and
`"Ride started"` to `"completed"`, but additionally maps `"pending"` and
`"en route"` to `"in_progress"`, and `"Ride completed"` and `"in_progress"`
to `"completed"`; every status outside these seven keys — in particular
`"completed"` and `"cancelled"` — maps to `none`. -/
theorem c1_next_automatic_status_characterization (s : String)
    (h : s ∉ ["pending", "en route", "Driver on the way", "Driver arrived",
      "Ride started", "Ride completed", "in_progress"]) :
    getNextAutomaticStatus "Driver on the way" = some "Driver arrived" ∧
    getNextAutomaticStatus "Driver arrived" = some "Ride started" ∧
    getNextAutomaticStatus "Ride started" = some "completed" ∧
    getNextAutomaticStatus "pending" = some "in_progress" ∧
    getNextAutomaticStatus "en route" = some "in_progress" ∧
    getNextAutomaticStatus "Ride completed" = some "completed" ∧
    getNextAutomaticStatus "in_progress" = some "completed" ∧
    getNextAutomaticStatus s = none := by
  simp only [List.mem_cons, List.not_mem_nil, or_false] at h
  push_neg at h
  obtain ⟨h1, h2, h3, h4, h5, h6, h7⟩ := h
  refine ⟨by decide, by decide, by decide, by decide, by decide, by decide,
    by decide, ?_⟩
  simp [getNextAutomaticStatus, h1, h2, h3, h4, h5, h6, h7]

/-- C1, witness: the characterization applied at `s = "cancelled"`. -/
theorem c1_witness :
    (("cancelled" : String) ∉ ["pending", "en route", "Driver on the way",
      "Driver arrived", "Ride started", "Ride completed", "in_progress"]) ∧
    getNextAutomaticStatus "cancelled" = none :=
  ⟨by decide,
    (c1_next_automatic_status_characterization "cancelled" (by decide)).2.2.2.2.2.2.2⟩

/-! ## Claim C2 — terminal statuses are frozen -/

/-- C2: for a ride whose status is `"completed"` or `"cancelled"`, the
scheduler's transition function yields `none`, and both `cancelRide` and the
manual `updateRideStatus` leave the store unchanged and refuse the
request. -/
theorem c2_terminal_rides_frozen (s : String)
    (hs : s = "completed" ∨ s = "cancelled")
    (rides : List Ride) (rideId userId : Nat) (target : String) (now : ℚ)
    (ride : Ride) (hfound : findRideById rides rideId = some ride)
    (hst : ride.status = s) :
    getNextAutomaticStatus s = none ∧
    (cancelRide rides rideId userId now).1 = rides ∧
    (cancelRide rides rideId userId now).2 ≠ CancelResult.ok ∧
    (updateRideStatusCtrl rides rideId userId target now).1 = rides ∧
    ∀ u, (updateRideStatusCtrl rides rideId userId target now).2 ≠
      UpdateResult.ok u := by
  obtain h | h := hs <;> subst h <;>
    refine ⟨by decide, ?_, ?_, ?_, ?_⟩ <;>
    simp only [cancelRide, updateRideStatusCtrl, hfound] <;>
    split_ifs <;> simp_all

/-- C2, witness: a concrete completed ride is rejected by both mutation
endpoints and has no automatic successor. -/
theorem c2_witness :
    (("completed" : String) = "completed" ∨ ("completed" : String) = "cancelled") ∧
    findRideById [rideT] 5 = some rideT ∧ rideT.status = "completed" ∧
    ((cancelRide [rideT] 5 3 0).1 = [rideT] ∧
      (cancelRide [rideT] 5 3 0).2 ≠ CancelResult.ok ∧
      (updateRideStatusCtrl [rideT] 5 3 "cancelled" 0).1 = [rideT] ∧
      ∀ u, (updateRideStatusCtrl [rideT] 5 3 "cancelled" 0).2 ≠
        UpdateResult.ok u) := by
  refine ⟨Or.inl rfl, rfl, rfl, ?_⟩
  have h := c2_terminal_rides_frozen "completed" (Or.inl rfl) [rideT] 5 3
    "cancelled" 0 rideT rfl rfl
  exact ⟨h.2.1, h.2.2.1, h.2.2.2.1, h.2.2.2.2⟩

/-! ## Claim C3 — manual transition rejection -/

/-- C3, counterexample: the claim says `cancelled` is a valid manual target
from every non-terminal status and that a `"Driver on the way"` →
`"completed"` request is rejected listing `{Driver arrived, cancelled}`;
but `updateRideStatus` rejects `"Driver on the way"` → `"cancelled"`, and
its reported valid-target set for `"Driver on the way"` is just
`["Driver arrived"]`. -/
theorem c3_counterexample :
    updateRideStatusCtrl [rideC3] 7 2 "cancelled" 0 =
      ([rideC3], UpdateResult.invalidTransition ["Driver arrived"]) ∧
    "cancelled" ∉ validNextStatuses "Driver on the way" := by
  exact ⟨rfl, by decide⟩

/-- C3 (amended): the manual table of `updateRideStatus` allows `cancelled`
only from `"Driver arrived"` and `"Ride started"`; its set of valid targets
for `"Driver on the way"` is exactly `["Driver arrived"]`; and every request
whose target is not in the set for the ride's current (owned, non-terminal)
status is rejected with a validation error reporting that set. -/
theorem c3_manual_transition_rejection :
    (∀ s : String, "cancelled" ∈ validNextStatuses s ↔
      s = "Driver arrived" ∨ s = "Ride started") ∧
    validNextStatuses "Driver on the way" = ["Driver arrived"] ∧
    ∀ (rides : List Ride) (rideId userId : Nat) (target : String) (now : ℚ)
      (ride : Ride),
      findRideById rides rideId = some ride →
      ride.userId = userId →
      ride.status ≠ "completed" →
      ride.status ≠ "cancelled" →
      target ∉ validNextStatuses ride.status →
      updateRideStatusCtrl rides rideId userId target now =
        (rides, UpdateResult.invalidTransition (validNextStatuses ride.status)) := by
  refine ⟨?_, by decide, ?_⟩
  · intro s
    unfold validNextStatuses
    split_ifs with h1 h2 h3 h4 <;> simp_all
  · intro rides rideId userId target now ride hfound huid hc1 hc2 hmem
    simp only [updateRideStatusCtrl, hfound, huid]
    split_ifs <;> simp_all

/-- C3, witness: the concrete scenario — a request from
`"Driver on the way"` directly to `"completed"` is rejected with valid
targets `["Driver arrived"]`. -/
theorem c3_witness :
    findRideById [rideC3] 7 = some rideC3 ∧ rideC3.userId = 2 ∧
    rideC3.status ≠ "completed" ∧ rideC3.status ≠ "cancelled" ∧
    "completed" ∉ validNextStatuses rideC3.status ∧
    updateRideStatusCtrl [rideC3] 7 2 "completed" 0 =
      ([rideC3], UpdateResult.invalidTransition ["Driver arrived"]) := by
  refine ⟨rfl, rfl, by decide, by decide, by decide, ?_⟩
  have h := c3_manual_transition_rejection.2.2 [rideC3] 7 2 "completed" 0
    rideC3 rfl rfl (by decide) (by decide) (by decide)
  have hv : validNextStatuses rideC3.status = ["Driver arrived"] := by decide
  rw [hv] at h
  exact h

/-! ## Store and fold helper lemmas -/

/-- Folding a step function preserves any invariant it preserves stepwise. -/
theorem foldl_invariant {α β : Type _} (P : β → Prop) (f : β → α → β)
    (l : List α) (init : β) (h0 : P init)
    (hstep : ∀ b a, a ∈ l → P b → P (f b a)) : P (l.foldl f init) := by
  induction l generalizing init with
  | nil => exact h0
  | cons x xs ih =>
      exact ih (f init x) (hstep init x (List.mem_cons_self x xs) h0)
        fun b a ha hb => hstep b a (List.mem_cons_of_mem x ha) hb

/-- `db.updateRide` never changes the stored ride ids. -/
theorem map_id_updateRideInStore (l : List Ride) (u : Ride) :
    (updateRideInStore l u).map Ride.id = l.map Ride.id := by
  induction l with
  | nil => rfl
  | cons r rs ih =>
      by_cases h : r.id = u.id
      · simp [updateRideInStore, h]
      · simp [updateRideInStore, h, ih]

/-- A ride with a different id survives a `db.updateRide` untouched. -/
theorem mem_updateRideInStore_of_ne {l : List Ride} {r u : Ride}
    (hmem : r ∈ l) (hne : r.id ≠ u.id) : r ∈ updateRideInStore l u := by
  induction l with
  | nil => simp at hmem
  | cons x xs ih =>
      rcases List.mem_cons.mp hmem with h | h
      · subst h
        simp [updateRideInStore, if_neg hne]
      · by_cases hx : x.id = u.id
        · simp [updateRideInStore, hx, List.mem_cons_of_mem, h]
        · simp only [updateRideInStore, if_neg hx]
          exact List.mem_cons_of_mem x (ih h)

/-- Every ride in a post-`db.updateRide` store is the written record or was
already present. -/
theorem eq_or_mem_of_mem_updateRideInStore {l : List Ride} {r u : Ride}
    (h : r ∈ updateRideInStore l u) : r = u ∨ r ∈ l := by
  induction l with
  | nil => simp [updateRideInStore] at h
  | cons x xs ih =>
      by_cases hx : x.id = u.id
      · simp only [updateRideInStore, if_pos hx] at h
        rcases List.mem_cons.mp h with h | h
        · exact Or.inl h
        · exact Or.inr (List.mem_cons_of_mem x h)
      · simp only [updateRideInStore, if_neg hx] at h
        rcases List.mem_cons.mp h with h | h
        · exact Or.inr (h ▸ List.mem_cons_self x xs)
        · rcases ih h with h | h
          · exact Or.inl h
          · exact Or.inr (List.mem_cons_of_mem x h)

/-- The scheduler's loop body either leaves the state alone or appends the
publish/store-write pair of the advanced snapshot while writing it to the
store. -/
theorem processRide_eq_or (now : ℚ) (env : Bool)
    (st : List Ride × List SchedEvent) (ride : Ride) :
    processRide now env st ride = st ∨
    (hasEnoughTimePassed ride.lastUpdated ride.status env now = true ∧
      ∃ ns, getNextAutomaticStatus ride.status = some ns ∧
        processRide now env st ride =
          (updateRideInStore st.1 (advancedRide ride ns now),
            st.2 ++ [SchedEvent.publish ride.id (advancedRide ride ns now),
              SchedEvent.storeWrite ride.id (advancedRide ride ns now)])) := by
  cases hact : isActiveRide ride with
  | false => exact Or.inl (by simp [processRide, hact])
  | true =>
      cases htime : hasEnoughTimePassed ride.lastUpdated ride.status env now with
      | false => exact Or.inl (by simp [processRide, hact, htime])
      | true =>
          cases hgs : getNextAutomaticStatus ride.status with
          | none => exact Or.inl (by simp [processRide, hact, htime, hgs])
          | some ns =>
              exact Or.inr ⟨rfl, ns, rfl,
                by simp [processRide, hact, htime, hgs]⟩

/-! ## Claim C4 — dwell-time gating is a per-ride no-op -/

/-- C4: an active ride still inside the dwell window for its status is left
completely unchanged by a scheduler tick: the unchanged record stays in the
store, every stored ride bearing its id is that unchanged record, no
publish or store-write event concerns it, and the tick preserves the
store's id sequence (so the same reasoning applies to every further tick
inside the window). -/
theorem c4_dwell_window_no_op (rides : List Ride) (now : ℚ) (isTestEnv : Bool)
    (r : Ride) (hmem : r ∈ rides) (hids : (rides.map Ride.id).Nodup)
    (hdwell : hasEnoughTimePassed r.lastUpdated r.status isTestEnv now = false) :
    r ∈ (schedulerTick rides now isTestEnv).1 ∧
    (∀ r' ∈ (schedulerTick rides now isTestEnv).1, r'.id = r.id → r' = r) ∧
    (∀ e ∈ (schedulerTick rides now isTestEnv).2, eventRideId e ≠ r.id) ∧
    ((schedulerTick rides now isTestEnv).1).map Ride.id = rides.map Ride.id := by
  have hinj : ∀ x ∈ rides, x.id = r.id → x = r :=
    fun x hx hid => List.inj_on_of_nodup_map hids hx hmem hid
  refine foldl_invariant
    (P := fun st : List Ride × List SchedEvent =>
      r ∈ st.1 ∧ (∀ r' ∈ st.1, r'.id = r.id → r' = r) ∧
      (∀ e ∈ st.2, eventRideId e ≠ r.id) ∧
      st.1.map Ride.id = rides.map Ride.id)
    (processRide now isTestEnv) (rides.filter isActiveRide) (rides, [])
    ⟨hmem, fun r' h h' => hinj r' h h', by simp, rfl⟩ ?_
  rintro st x hx ⟨ih1, ih2, ih3, ih4⟩
  have hx' : x ∈ rides := List.mem_of_mem_filter hx
  rcases processRide_eq_or now isTestEnv st x with heq | ⟨htime, ns, _, heq⟩
  · rw [heq]; exact ⟨ih1, ih2, ih3, ih4⟩
  · have hxid : x.id ≠ r.id := by
      intro hid
      have hxr : x = r := hinj x hx' hid
      rw [hxr, hdwell] at htime
      exact Bool.false_ne_true htime
    have hadvid : (advancedRide x ns now).id = x.id := rfl
    rw [heq]
    refine ⟨?_, ?_, ?_, ?_⟩
    · exact mem_updateRideInStore_of_ne ih1 (by rw [hadvid]; exact fun h => hxid h.symm)
    · intro r' hr' hid
      rcases eq_or_mem_of_mem_updateRideInStore hr' with h | h
      · exact absurd (h ▸ hid) (by rw [hadvid] at *; exact hxid)
      · exact ih2 r' h hid
    · intro e he
      rcases List.mem_append.mp he with h | h
      · exact ih3 e h
      · rcases List.mem_cons.mp h with h | h
        · rw [h]; exact hxid
        · rcases List.mem_cons.mp h with h | h
          · rw [h]; exact hxid
          · simp at h
    · rw [map_id_updateRideInStore]; exact ih4

/-- C4, witness: a concrete one-ride store inside its (test-mode) dwell
window at 1000 ms is untouched by the tick. -/
theorem c4_witness :
    rideC4 ∈ [rideC4] ∧ (([rideC4].map Ride.id).Nodup) ∧
    hasEnoughTimePassed rideC4.lastUpdated rideC4.status true 1000 = false ∧
    rideC4 ∈ (schedulerTick [rideC4] 1000 true).1 := by
  have hdw : hasEnoughTimePassed rideC4.lastUpdated rideC4.status true 1000 = false := by
    simp only [hasEnoughTimePassed, rideC4, getMinTimeForStatus]
    norm_num
  refine ⟨List.mem_singleton.mpr rfl, by simp, hdw, ?_⟩
  exact (c4_dwell_window_no_op [rideC4] 1000 true rideC4
    (List.mem_singleton.mpr rfl) (by simp) hdw).1

/-! ## Claim C5 — publish/store ordering on an advancing tick -/

/-- Appending one publish/store-write pair preserves the pairing shape. -/
theorem PublishThenWrite.append_pair {l : List SchedEvent}
    (h : PublishThenWrite l) (i : Nat) (s : Ride) :
    PublishThenWrite
      (l ++ [SchedEvent.publish i s, SchedEvent.storeWrite i s]) := by
  induction h with
  | nil => exact .pair i s .nil
  | pair j t _ ih => exact .pair j t ih

/-- C5, counterexample: on a concrete advancing ride the tick's trace is the
publish event *followed by* the store write, so it is false that every
published snapshot was already persisted at an earlier trace position. -/
theorem c5_counterexample :
    (schedulerTick [rideC5] 60000 true).2 =
      [SchedEvent.publish 21 rideC5adv, SchedEvent.storeWrite 21 rideC5adv] ∧
    ¬ StoreBeforePublish (schedulerTick [rideC5] 60000 true).2 := by
  have htime : hasEnoughTimePassed 0 "Driver on the way" true 60000 = true := by
    simp only [hasEnoughTimePassed, getMinTimeForStatus]
    norm_num
  have htrace : (schedulerTick [rideC5] 60000 true).2 =
      [SchedEvent.publish 21 rideC5adv, SchedEvent.storeWrite 21 rideC5adv] := by
    simp [schedulerTick, processRide, htime, isActiveRide, rideC5, rideC5adv,
      advancedRide, getUpdatedETA, getNextAutomaticStatus, strOr]
  refine ⟨htrace, ?_⟩
  intro h
  obtain ⟨j, hj, _⟩ := h 0 21 rideC5adv (by rw [htrace]; rfl)
  exact Nat.not_lt_zero j hj

/-- C5 (amended): on every scheduler tick, each advancing ride's new
snapshot is first published to the ride's subscribers and then persisted to
the store — the trace is a sequence of publish/store-write pairs in that
order (the reverse of the claimed store-then-publish order). -/
theorem c5_publish_precedes_store (rides : List Ride) (now : ℚ)
    (isTestEnv : Bool) :
    PublishThenWrite (schedulerTick rides now isTestEnv).2 := by
  refine foldl_invariant
    (P := fun st : List Ride × List SchedEvent => PublishThenWrite st.2)
    (processRide now isTestEnv) (rides.filter isActiveRide) (rides, [])
    .nil ?_
  intro st x _ hP
  rcases processRide_eq_or now isTestEnv st x with heq | ⟨_, ns, _, heq⟩
  · rw [heq]; exact hP
  · rw [heq]; exact hP.append_pair x.id (advancedRide x ns now)

/-! ## Claim C6 — `createRide` and the prior active ride -/

/-- Once the running best is set, the matcher loop always returns a best. -/
theorem nearestLoop_isSome (coords : List ℝ) (l : List Driver)
    (x : Driver × ℝ) : ∃ y, nearestLoop coords l (some x) = some y := by
  induction l generalizing x with
  | nil => exact ⟨x, rfl⟩
  | cons d ds ih =>
      obtain ⟨b, shortest⟩ := x
      simp only [nearestLoop]
      split_ifs
      · exact ih _
      · exact ih _

/-- With at least one active driver, `findNearestDriver` returns a match. -/
theorem findNearestDriver_isSome (drivers : List Driver) (coords : List ℝ)
    (h : (getActiveDrivers drivers).length ≠ 0) :
    ∃ y, findNearestDriver drivers coords = some y := by
  unfold findNearestDriver
  rw [if_neg h]
  cases had : getActiveDrivers drivers with
  | nil => simp [had] at h
  | cons d ds =>
      obtain ⟨y, hy⟩ :=
        nearestLoop_isSome coords ds (d, calculateDistance coords d.coords)
      simp only [nearestLoop, hy]
      exact ⟨_, rfl⟩

/-- `db.findRideById` finds nothing when the id is absent. -/
theorem findRideById_eq_none {l : List Ride} {i : Nat}
    (h : i ∉ l.map Ride.id) : findRideById l i = none := by
  unfold findRideById
  rw [List.find?_eq_none]
  intro r hr hbeq
  have hid : r.id = i := by simpa using hbeq
  exact h (hid ▸ List.mem_map.mpr ⟨r, hr, rfl⟩)

/-- After splicing out the ride with a given id from a store with distinct
ids, no ride with that id remains. -/
theorem findRideById_removeRideById {l : List Ride} {i : Nat}
    (hids : (l.map Ride.id).Nodup) :
    findRideById (removeRideById l i) i = none := by
  induction l with
  | nil => rfl
  | cons r rs ih =>
      simp only [List.map_cons, List.nodup_cons] at hids
      by_cases h : r.id = i
      · simp only [removeRideById, if_pos h]
        exact findRideById_eq_none (h ▸ hids.1)
      · simp only [removeRideById, if_neg h]
        unfold findRideById
        rw [List.find?_cons_of_neg]
        · exact ih hids.2
        · simp [h]

/-- C6, counterexample: with one active ride of user 4 in the store and an
active driver available, a second `createRide` for user 4 leaves *no* ride
with the prior ride's id in the store — the prior ride is deleted, not
transitioned to a terminal status. -/
theorem c6_counterexample :
    findRideById
      (createRide [rideOld] [driver1] 4 [0, 0] [8, 9] "Work" 999 0).1
      rideOld.id = none := by
  simp [createRide, findNearestDriver, nearestLoop, getActiveDrivers,
    findRideById, removeRideById, rideOld, driver1]

/-- C6 (amended): when the requester already has an active ride and a driver
is available, `createRide` *removes* the prior active ride record from the
store (no ride with its id remains) and appends the newly created ride; the
prior ride is deleted rather than transitioned to a terminal status. -/
theorem c6_create_ride_removes_prior (rides : List Ride)
    (drivers : List Driver) (userId : Nat) (pickup dest : List ℝ)
    (destination : String) (newId : Nat) (now : ℚ) (ex : Ride)
    (hex : rides.find? (fun r => r.userId == userId &&
      r.status != "completed" && r.status != "cancelled") = some ex)
    (hdr : (getActiveDrivers drivers).length ≠ 0)
    (hids : (rides.map Ride.id).Nodup)
    (hnew : newId ∉ rides.map Ride.id) :
    findRideById
      (createRide rides drivers userId pickup dest destination newId now).1
      ex.id = none ∧
    ∃ nr, (createRide rides drivers userId pickup dest destination newId
        now).2 = CreateResult.created nr ∧ nr.id = newId ∧
      nr ∈ (createRide rides drivers userId pickup dest destination newId
        now).1 := by
  obtain ⟨⟨nd, ndist⟩, hfind⟩ := findNearestDriver_isSome drivers pickup hdr
  have hexmem : ex ∈ rides := List.mem_of_find?_eq_some hex
  have hexid : newId ≠ ex.id := by
    intro h
    exact hnew (h ▸ List.mem_map.mpr ⟨ex, hexmem, rfl⟩)
  simp only [createRide, hfind, hex]
  constructor
  · unfold findRideById
    rw [List.find?_append]
    have h1 := findRideById_removeRideById (l := rides) (i := ex.id) hids
    unfold findRideById at h1
    rw [h1]
    simp [hexid]
  · exact ⟨_, rfl, rfl, by simp⟩

/-- C6, witness: the deletion theorem applied to a concrete store with one
prior active ride and one active driver. -/
theorem c6_witness :
    ([rideOld].find? (fun r => r.userId == 4 && r.status != "completed" &&
      r.status != "cancelled") = some rideOld) ∧
    (getActiveDrivers [driver1]).length ≠ 0 ∧
    (([rideOld].map Ride.id).Nodup) ∧ 999 ∉ [rideOld].map Ride.id ∧
    findRideById
      (createRide [rideOld] [driver1] 4 [0, 0] [8, 9] "Office" 999 5000).1
      rideOld.id = none := by
  refine ⟨by simp [rideOld], by simp [getActiveDrivers, driver1], by simp,
    by simp [rideOld], ?_⟩
  exact (c6_create_ride_removes_prior [rideOld] [driver1] 4 [0, 0] [8, 9]
    "Office" 999 5000 rideOld (by simp [rideOld])
    (by simp [getActiveDrivers, driver1]) (by simp) (by simp [rideOld])).1

/-! ## Claim C7 — `getRideStatus` is not read-only -/

/-- C7, counterexample: for a concrete user whose active ride has been in
`"Driver on the way"` for 5 minutes, a `getRideStatus` request changes the
stored ride (its status becomes `"Driver arrived"`), so the status-read
endpoint does mutate the store. -/
theorem c7_counterexample :
    ((getRideStatusStep [rideC7] 6 300000).1).map Ride.status =
      ["Driver arrived"] ∧
    (getRideStatusStep [rideC7] 6 300000).1 ≠ [rideC7] := by
  have hlt : ¬ ((300000 : ℚ) / (60 * 1000) < 2) := by norm_num
  have h1 : ((getRideStatusStep [rideC7] 6 300000).1).map Ride.status =
      ["Driver arrived"] := by
    simp [getRideStatusStep, mostRecent, rideC7, hlt, ctrlNextStatus,
      ctrlMinTimeForStatus, updateRideInStore]
  refine ⟨h1, fun h => ?_⟩
  rw [h] at h1
  simp [rideC7] at h1

/-- C7 (amended): `getRideStatus` leaves every ride record unchanged *only
while* the elapsed time since the selected ride's `lastUpdated` is below the
controller's minimum dwell time for its status; in that case the store is
returned untouched and the unmodified ride is reported.  (Once the minimum
has elapsed it advances the ride and writes the store, as the
counterexample shows.) -/
theorem c7_get_ride_status_frame (rides : List Ride) (userId : Nat)
    (now : ℚ) (r : Ride)
    (hfound : mostRecent (rides.filter (fun r => r.userId == userId &&
      r.status != "completed" && r.status != "cancelled")) = some r)
    (hdwell : (now - r.lastUpdated) / (60 * 1000) <
      ctrlMinTimeForStatus r.status) :
    (getRideStatusStep rides userId now).1 = rides ∧
    (getRideStatusStep rides userId now).2 = some r := by
  simp only [getRideStatusStep, hfound]
  rw [if_pos hdwell]
  exact ⟨rfl, rfl⟩

/-- C7, witness: the frame property applied to a one-ride store 1000 ms
after the last update (below the 2-minute minimum). -/
theorem c7_witness :
    mostRecent ([rideC7].filter (fun r => r.userId == 6 &&
      r.status != "completed" && r.status != "cancelled")) = some rideC7 ∧
    (1000 - rideC7.lastUpdated) / (60 * 1000) <
      ctrlMinTimeForStatus rideC7.status ∧
    (getRideStatusStep [rideC7] 6 1000).1 = [rideC7] := by
  have hdwell : (1000 - rideC7.lastUpdated) / (60 * 1000) <
      ctrlMinTimeForStatus rideC7.status := by
    simp only [rideC7, ctrlMinTimeForStatus]
    norm_num
  refine ⟨by simp [mostRecent, rideC7], hdwell, ?_⟩
  exact (c7_get_ride_status_frame [rideC7] 6 1000 rideC7
    (by simp [mostRecent, rideC7]) hdwell).1

/-! ## Claim C10 — legacy statuses are reset to the initial status -/

/-- C10: if the requester's selected active ride carries a status outside
the controller's `nextStatus` table (for example the legacy `"Finish"`) and
the minimum dwell time has elapsed, `getRideStatus` responds with the ride
reset to the initial `"Driver on the way"` status (ETA untouched) and
writes that reset record to the store. -/
theorem c10_unknown_status_resets (rides : List Ride) (userId : Nat)
    (now : ℚ) (r : Ride)
    (hfound : mostRecent (rides.filter (fun r => r.userId == userId &&
      r.status != "completed" && r.status != "cancelled")) = some r)
    (hnone : ctrlNextStatus r.status = none)
    (hdwell : ¬ ((now - r.lastUpdated) / (60 * 1000) <
      ctrlMinTimeForStatus r.status)) :
    (getRideStatusStep rides userId now).2 =
      some { r with status := "Driver on the way", lastUpdated := now } ∧
    (getRideStatusStep rides userId now).1 =
      updateRideInStore rides
        { r with status := "Driver on the way", lastUpdated := now } := by
  simp only [getRideStatusStep, hfound]
  rw [if_neg hdwell]
  simp [hnone]

/-- C10, witness: the reset theorem applied to a ride stuck in the legacy
status `"Finish"` for 3 minutes. -/
theorem c10_witness :
    mostRecent ([rideC10].filter (fun r => r.userId == 12 &&
      r.status != "completed" && r.status != "cancelled")) = some rideC10 ∧
    ctrlNextStatus rideC10.status = none ∧
    ¬ ((180000 - rideC10.lastUpdated) / (60 * 1000) <
      ctrlMinTimeForStatus rideC10.status) ∧
    (getRideStatusStep [rideC10] 12 180000).2 =
      some { rideC10 with
              status := "Driver on the way"
              lastUpdated := 180000 } := by
  have hdwell : ¬ ((180000 - rideC10.lastUpdated) / (60 * 1000) <
      ctrlMinTimeForStatus rideC10.status) := by
    simp [rideC10, ctrlMinTimeForStatus]
    norm_num
  refine ⟨by simp [mostRecent, rideC10], by decide, hdwell, ?_⟩
  exact (c10_unknown_status_resets [rideC10] 12 180000 rideC10
    (by simp [mostRecent, rideC10]) (by decide) hdwell).1

/-! ## Claim C8 — empty fleet refuses ride creation -/

/-- C8: with no active driver, `findNearestDriver` signals no match and
`createRide` refuses the request with the client-visible "no drivers"
message, leaving the ride store exactly as it was. -/
theorem c8_no_drivers_refusal (rides : List Ride) (drivers : List Driver)
    (userId : Nat) (pickup dest : List ℝ) (destination : String)
    (newId : Nat) (now : ℚ)
    (hempty : getActiveDrivers drivers = []) :
    findNearestDriver drivers pickup = none ∧
    createRide rides drivers userId pickup dest destination newId now =
      (rides,
        CreateResult.noDrivers
          "No drivers are currently available in your area") := by
  have hfind : findNearestDriver drivers pickup = none := by
    simp [findNearestDriver, hempty]
  exact ⟨hfind, by simp [createRide, hfind]⟩

/-- C8, witness: the refusal theorem applied to an empty fleet and an empty
store. -/
theorem c8_witness :
    getActiveDrivers ([] : List Driver) = [] ∧
    createRide [] [] 1 [0, 0] [0, 1] "Accra" 99 0 =
      ([], CreateResult.noDrivers
        "No drivers are currently available in your area") :=
  ⟨rfl, (c8_no_drivers_refusal [] [] 1 [0, 0] [0, 1] "Accra" 99 0 rfl).2⟩

/-! ## Claim C9 — distance symmetry and reflexivity -/

/-- Degree-to-radian conversion commutes with negation. -/
theorem deg2rad_neg (x : ℝ) : deg2rad (-x) = -deg2rad x := by
  unfold deg2rad; ring

/-- `Math.atan2 0 1 = 0`. -/
theorem atan2_zero_one : atan2 0 1 = 0 := by
  unfold atan2
  have h1 : (⟨1, 0⟩ : ℂ) = 1 := by
    apply Complex.ext <;> simp
  rw [h1, Complex.arg_one]

/-- C9: `calculateDistance` is symmetric in its two coordinate pairs (the
malformed-input fallback included), and the distance from any valid
2-element coordinate pair to itself is 0. -/
theorem c9_distance_symm_and_zero :
    (∀ c1 c2 : List ℝ, calculateDistance c1 c2 = calculateDistance c2 c1) ∧
    ∀ a : List ℝ, a.length = 2 → calculateDistance a a = 0 := by
  constructor
  · intro c1 c2
    unfold calculateDistance
    split_ifs with h1 h2 h3
    · dsimp only
      rw [show c1.getD 1 0 - c2.getD 1 0 = -(c2.getD 1 0 - c1.getD 1 0) from
          by ring,
        show c1.getD 0 0 - c2.getD 0 0 = -(c2.getD 0 0 - c1.getD 0 0) from
          by ring,
        deg2rad_neg, deg2rad_neg, neg_div, neg_div, Real.sin_neg,
        Real.sin_neg]
      ring_nf
    · exact absurd ⟨h1.2, h1.1⟩ h2
    · exact absurd ⟨h3.2, h3.1⟩ h1
    · rfl
  · intro a ha
    unfold calculateDistance
    rw [if_pos ⟨ha, ha⟩]
    dsimp only
    rw [sub_self (a.getD 1 0), sub_self (a.getD 0 0)]
    have hd0 : deg2rad 0 = 0 := by unfold deg2rad; ring
    simp only [hd0, zero_div, Real.sin_zero, mul_zero, zero_mul, add_zero,
      zero_add, Real.sqrt_zero, sub_zero, Real.sqrt_one, atan2_zero_one]

/-- C9, witness: the reflexivity part applied to the concrete pair
`[0, 0]`. -/
theorem c9_witness :
    (([0, 0] : List ℝ).length = 2) ∧ calculateDistance [0, 0] [0, 0] = 0 :=
  ⟨rfl, c9_distance_symm_and_zero.2 [0, 0] rfl⟩
